import Mathlib

/-!
Shallow embedding of the AI aggregator service in `src/main.py` (FastAPI app
"AI Aggregator Konsensus API"), together with proofs about the claims of its
specification.

Modelling conventions:
* The two upstream LLM clients (`gemini_model.generate_content` and
  `openai_client.chat.completions.create`) are modelled by an environment
  `Env` of black-box functions from a prompt to an `LLMOutcome`: either a
  well-formed response text (`success`) or a raised exception carrying its
  message (`failure`).  This matches the spec's view of providers as
  black-box functions that may fail.
* Each operation additionally returns a `Trace`: the list of prompts actually
  sent to each upstream client, in order.  This makes "no further model call
  is made" properties expressible.  A function whose trace component is
  `Trace.empty` contacted no provider.
* Python's `"needle" in haystack` substring test is embedded as
  `containsSubstr`, executable and proved equivalent to `List.IsInfix` on the
  underlying character lists.
* `asyncio.gather(*tasks)` returns results in the order the tasks were given,
  not completion order; it is embedded as `List.map` over the model list.
-/

/-- Outcome of one call to an upstream LLM client: either a well-formed
response text, or an exception whose message is recorded. -/
inductive LLMOutcome where
  | success (text : String)
  | failure (errMsg : String)
deriving DecidableEq, Repr

/-- The upstream provider clients, as black-box prompt-to-outcome functions:
`gemini` models `gemini_model.generate_content`, `gpt` models
`openai_client.chat.completions.create` with the user prompt as the single
message (main.py lines 26-29, 66, 70-74, 113). -/
structure Env where
  gemini : String → LLMOutcome
  gpt : String → LLMOutcome

/-- Prompts sent to each upstream client, in call order.  Used to express
which provider calls an operation performs. -/
structure Trace where
  geminiCalls : List String
  gptCalls : List String
deriving DecidableEq, Repr

/-- The empty trace: no provider was contacted. -/
def Trace.empty : Trace := ⟨[], []⟩

/-- Concatenation of traces of sequential (or gathered) calls. -/
def Trace.append (t u : Trace) : Trace :=
  ⟨t.geminiCalls ++ u.geminiCalls, t.gptCalls ++ u.gptCalls⟩

/-- Pydantic model `PromptRequest` (main.py lines 53-55): a prompt and a list
of target models defaulting to both providers. -/
structure PromptRequest where
  prompt : String
  models : List String := ["gemini", "gpt"]
deriving DecidableEq, Repr

/-- Pydantic model `ModelResponse` (main.py lines 57-59): the per-model result
type.  It has exactly these two fields; there is no success flag. -/
structure ModelResponse where
  model_name : String
  response : String
deriving DecidableEq, Repr

/-- Embedding of Python's `needle in hay` on the character lists: does
`needle` occur as a contiguous substring of `hay`? -/
def subChars : List Char → List Char → Bool
  | n, [] => n.isEmpty
  | n, c :: hs => n.isPrefixOf (c :: hs) || subChars n hs

/-- Embedding of Python's `needle in hay` substring test on strings. -/
def containsSubstr (needle hay : String) : Bool :=
  subChars needle.data hay.data

/-- Result of the HTTP endpoint: either a raised `HTTPException` with its
status code and detail, or a JSON `ModelResponse` body. -/
inductive HandlerResult where
  | httpError (status : Nat) (detail : String)
  | ok (body : ModelResponse)
deriving DecidableEq, Repr

/-- Embedding of `call_llm` (main.py lines 62-82).  The `try` block wraps the
three-way dispatch on `model_name`; any exception raised by the upstream call
is caught and converted to a response text embedding the error message
(line 82), so the function is total.  The unknown-model branch (lines 77-78)
contacts no provider.  The trace records the single upstream prompt sent, if
any. -/
def call_llm (env : Env) (model_name : String) (prompt : String) :
    ModelResponse × Trace :=
  if model_name = "gemini" then
    match env.gemini prompt with
    | .success t => (⟨"Gemini", t⟩, ⟨[prompt], []⟩)
    | .failure e => (⟨model_name, "Gagal mendapatkan respons: " ++ e⟩, ⟨[prompt], []⟩)
  else if model_name = "gpt" then
    match env.gpt prompt with
    | .success t => (⟨"GPT (OpenAI)", t⟩, ⟨[], [prompt]⟩)
    | .failure e => (⟨model_name, "Gagal mendapatkan respons: " ++ e⟩, ⟨[], [prompt]⟩)
  else
    (⟨model_name, "Model tidak dikenal."⟩, Trace.empty)

/-- Leading part of the consensus prompt f-string (main.py lines 93-100), up
to and including the closing quote after the interpolated user prompt and the
trailing text before the per-response blocks. -/
def consensus_header (prompt : String) : String :=
  "\n    Tugas Anda adalah bertindak sebagai editor ahli.\n    Anda telah menerima beberapa jawaban dari AI yang berbeda untuk pertanyaan awal pengguna.\n    \n    Pertanyaan Pengguna: \"" ++ prompt ++ "\"\n\n    Berikut adalah jawaban-jawaban tersebut:\n    "

/-- Per-response block appended to the consensus prompt for each successful
response (main.py line 103). -/
def consensus_block (r : ModelResponse) : String :=
  "\n--- Jawaban dari " ++ r.model_name ++ " ---\n" ++ r.response ++ "\n--- Akhir Jawaban ---\n"

/-- Closing instructions appended to the consensus prompt (main.py
lines 105-109). -/
def consensus_footer : String :=
  "\n    Harap sintesiskan jawaban-jawaban ini menjadi satu jawaban akhir yang kohesif, akurat, dan komprehensif. \n    Ambil poin-poin terbaik dari setiap jawaban. Jangan hanya mendaftar apa yang dikatakan setiap AI.\n    Tuliskan jawaban akhir seolah-olah Anda menjawab pertanyaan pengguna secara langsung.\n    "

/-- The full judge prompt built by `generate_consensus` (main.py
lines 93-109): header, then one block per response in list order, then the
footer. -/
def build_consensus_prompt (prompt : String) (responses : List ModelResponse) :
    String :=
  (responses.foldl (fun acc r => acc ++ consensus_block r) (consensus_header prompt))
    ++ consensus_footer

/-- Embedding of `generate_consensus` (main.py lines 85-117).  With exactly
one response, that response's text is returned directly and no model is
called (lines 89-90).  Otherwise the judge prompt is built and sent to the
Gemini client (line 113); an exception from that call is caught and converted
to the fallback text of line 117.  The trace records the judge call when it
is made. -/
def generate_consensus (env : Env) (prompt : String)
    (responses : List ModelResponse) : String × Trace :=
  if h : responses.length = 1 then
    ((responses.get ⟨0, by omega⟩).response, Trace.empty)
  else
    match env.gemini (build_consensus_prompt prompt responses) with
    | .success t => (t, ⟨[build_consensus_prompt prompt responses], []⟩)
    | .failure e => ("Gagal membuat konsensus. Error: " ++ e,
        ⟨[build_consensus_prompt prompt responses], []⟩)

/-- Embedding of the parallel dispatch in `aggregate_responses` (main.py
lines 130-131): one `call_llm` task per requested model, results collected by
`asyncio.gather` in task order. -/
def dispatch (env : Env) (prompt : String) (models : List String) :
    List (ModelResponse × Trace) :=
  models.map (fun m => call_llm env m prompt)

/-- The failure classification used at main.py line 134: a response is failed
exactly when its text contains the substring "Gagal mendapatkan respons". -/
def is_failed (r : ModelResponse) : Bool :=
  containsSubstr "Gagal mendapatkan respons" r.response

/-- The filter of main.py line 134: keep the responses not classified as
failed. -/
def successful_responses (rs : List ModelResponse) : List ModelResponse :=
  rs.filter (fun r => ! is_failed r)

/-- Embedding of the endpoint `aggregate_responses` (main.py lines 120-142).
An empty prompt raises HTTP 400 before any dispatch (lines 126-127).  All
requested models are called; responses whose text contains the failure marker
are filtered out (line 134); if none remain, HTTP 500 is raised (lines
136-137); otherwise the consensus over the successful responses is returned
as a `ModelResponse` named "Konsensus" (lines 140-142). -/
def aggregate_responses (env : Env) (request : PromptRequest) :
    HandlerResult × Trace :=
  if request.prompt = "" then
    (.httpError 400 "Prompt tidak boleh kosong.", Trace.empty)
  else
    let pairs := dispatch env request.prompt request.models
    let model_responses := pairs.map Prod.fst
    let dispatchTrace := (pairs.map Prod.snd).foldl Trace.append Trace.empty
    let succ := successful_responses model_responses
    if succ.isEmpty then
      (.httpError 500 "Semua model AI gagal merespons.", dispatchTrace)
    else
      let ct := generate_consensus env request.prompt succ
      (.ok ⟨"Konsensus", ct.fst⟩, dispatchTrace.append ct.snd)

/-! ### Concrete environments used in witnesses and counterexamples -/

/-- Environment in which every upstream call raises an exception. -/
def envAllFail : Env := ⟨fun _ => .failure "boom", fun _ => .failure "kaput"⟩

/-- Environment in which both providers answer and the judge call (any prompt
other than "hi") yields "J". -/
def envAB : Env :=
  ⟨fun q => if q = "hi" then .success "A" else .success "J",
   fun _ => .success "B"⟩

/-- Environment like `envAB` but with different individual answers and the
same judge answer "J". -/
def envCD : Env :=
  ⟨fun q => if q = "hi" then .success "C" else .success "J",
   fun _ => .success "D"⟩

/-- Environment in which every upstream call succeeds with a fixed text. -/
def envConst : Env := ⟨fun _ => .success "J", fun _ => .success "B"⟩

/-- Environment whose Gemini client genuinely succeeds, but with a response
text that contains the failure-marker substring. -/
def envTricky : Env :=
  ⟨fun _ => .success "Gagal mendapatkan respons: sebenarnya sukses",
   fun _ => .success "ok"⟩

/-! ### Substring machinery -/

/-- Characterisation of the executable substring test: `subChars n h` holds
exactly when `n` is a contiguous infix of `h`. -/
theorem subChars_iff (n : List Char) (h : List Char) :
    subChars n h = true ↔ n <:+: h := by
  induction h with
  | nil => simp [subChars, List.isEmpty_iff, List.infix_nil]
  | cons c hs ih =>
    simp [subChars, Bool.or_eq_true, List.isPrefixOf_iff_prefix,
      List.infix_cons_iff, ih]

/-- Characterisation of the embedded Python substring test on strings. -/
theorem containsSubstr_iff (n h : String) :
    containsSubstr n h = true ↔ n.data <:+: h.data :=
  subChars_iff n.data h.data

/-- Folding the per-response blocks onto an accumulator only appends
characters after the accumulator. -/
theorem foldl_block_data (l : List ModelResponse) :
    ∀ acc : String, ∃ t : List Char,
      (l.foldl (fun a r => a ++ consensus_block r) acc).data = acc.data ++ t := by
  induction l with
  | nil => exact fun acc => ⟨[], by simp⟩
  | cons x l ih =>
    intro acc
    obtain ⟨t, ht⟩ := ih (acc ++ consensus_block x)
    exact ⟨(consensus_block x).data ++ t, by
      simp only [List.foldl_cons, ht, String.data_append, List.append_assoc]⟩

/-- The block of every response in the list occurs inside the folded
consensus prompt body. -/
theorem block_infix_foldl (l : List ModelResponse) :
    ∀ (acc : String) (r : ModelResponse), r ∈ l →
      (consensus_block r).data
        <:+: (l.foldl (fun a x => a ++ consensus_block x) acc).data := by
  induction l with
  | nil => intro acc r hr; cases hr
  | cons x l ih =>
    intro acc r hr
    rcases List.mem_cons.mp hr with hr | hr
    · subst hr
      obtain ⟨t, ht⟩ := foldl_block_data l (acc ++ consensus_block r)
      exact ⟨acc.data, t, by
        simp only [List.foldl_cons, ht, String.data_append, List.append_assoc]⟩
    · simpa only [List.foldl_cons] using ih (acc ++ consensus_block x) r hr

/-- The user's prompt occurs verbatim inside the full judge prompt. -/
theorem prompt_infix_build (prompt : String) (responses : List ModelResponse) :
    prompt.data <:+: (build_consensus_prompt prompt responses).data := by
  obtain ⟨t, ht⟩ := foldl_block_data responses (consensus_header prompt)
  refine ⟨("\n    Tugas Anda adalah bertindak sebagai editor ahli.\n    Anda telah menerima beberapa jawaban dari AI yang berbeda untuk pertanyaan awal pengguna.\n    \n    Pertanyaan Pengguna: \"" : String).data,
    ("\"\n\n    Berikut adalah jawaban-jawaban tersebut:\n    " : String).data
      ++ t ++ consensus_footer.data, ?_⟩
  unfold build_consensus_prompt
  rw [String.data_append, ht]
  simp only [consensus_header, String.data_append, List.append_assoc]

/-- The block of every response occurs verbatim inside the full judge
prompt. -/
theorem block_infix_build (prompt : String) (responses : List ModelResponse)
    (r : ModelResponse) (hr : r ∈ responses) :
    (consensus_block r).data <:+: (build_consensus_prompt prompt responses).data := by
  have h1 := block_infix_foldl responses (consensus_header prompt) r hr
  obtain ⟨s, t, hst⟩ := h1
  exact ⟨s, t ++ consensus_footer.data, by
    simp only [build_consensus_prompt, String.data_append, ← hst,
      List.append_assoc]⟩

/-- The model name of a response occurs verbatim inside its block. -/
theorem model_name_infix_block (r : ModelResponse) :
    r.model_name.data <:+: (consensus_block r).data :=
  ⟨("\n--- Jawaban dari " : String).data,
   (" ---\n" : String).data ++ r.response.data
     ++ ("\n--- Akhir Jawaban ---\n" : String).data, by
    simp only [consensus_block, String.data_append, List.append_assoc]⟩

/-- The response text of a response occurs verbatim inside its block. -/
theorem response_infix_block (r : ModelResponse) :
    r.response.data <:+: (consensus_block r).data :=
  ⟨("\n--- Jawaban dari " : String).data ++ r.model_name.data
     ++ (" ---\n" : String).data,
   ("\n--- Akhir Jawaban ---\n" : String).data, by
    simp only [consensus_block, String.data_append, List.append_assoc]⟩

/-! ### Claims -/

/-- C5: for every prompt and every list of successful results containing
exactly one element, the Synthesizer (generate_consensus) returns that single
result's response text verbatim and does not invoke the judge model call (its
trace is empty). -/
theorem C5_single_response_verbatim (env : Env) (prompt : String)
    (r : ModelResponse) :
    generate_consensus env prompt [r] = (r.response, Trace.empty) := rfl

/-- C3: for every non-empty prompt and non-empty list of model identifiers,
the dispatcher's output list has length equal to the input model-list length,
and its entry at every position i is the result of calling the model at
position i of the input list, so the output order matches the input order
regardless of individual success or failure. -/
theorem C3_dispatch_length_and_order (env : Env) (prompt : String)
    (models : List String) (h1 : prompt ≠ "") (h2 : models ≠ []) (i : Nat) :
    ((dispatch env prompt models).map Prod.fst).length = models.length ∧
    ((dispatch env prompt models).map Prod.fst)[i]?
      = models[i]?.map (fun m => (call_llm env m prompt).fst) := by
  constructor
  · simp [dispatch]
  · simp only [dispatch, List.map_map, List.getElem?_map]
    cases models[i]? <;> rfl

/-- Witness for C3 at a concrete environment, prompt, model list and
position. -/
theorem C3_witness :
    ("hi" : String) ≠ "" ∧ (["gemini", "gpt"] : List String) ≠ [] ∧
    (((dispatch envAllFail "hi" ["gemini", "gpt"]).map Prod.fst).length
        = (["gemini", "gpt"] : List String).length ∧
      ((dispatch envAllFail "hi" ["gemini", "gpt"]).map Prod.fst)[0]?
        = (["gemini", "gpt"] : List String)[0]?.map
            (fun m => (call_llm envAllFail m "hi").fst)) :=
  ⟨by decide, by decide,
    C3_dispatch_length_and_order envAllFail "hi" ["gemini", "gpt"]
      (by decide) (by decide) 0⟩

/-- C8: for every request whose prompt is the empty string, the handler
raises HTTP 400 with the fixed detail text, and its trace is empty: no
provider adapter call is dispatched. -/
theorem C8_empty_prompt_rejected (env : Env) (request : PromptRequest)
    (h : request.prompt = "") :
    aggregate_responses env request
      = (.httpError 400 "Prompt tidak boleh kosong.", Trace.empty) := by
  unfold aggregate_responses
  rw [if_pos h]

/-- Witness for C8 at a concrete environment and request. -/
theorem C8_witness :
    (⟨"", ["gemini", "gpt"]⟩ : PromptRequest).prompt = "" ∧
    aggregate_responses envAllFail ⟨"", ["gemini", "gpt"]⟩
      = (.httpError 400 "Prompt tidak boleh kosong.", Trace.empty) :=
  ⟨rfl, C8_empty_prompt_rejected envAllFail ⟨"", ["gemini", "gpt"]⟩ rfl⟩

/-- C7: for every prompt and every list of two or more successful results, if
the judge model call raises an exception, the Synthesizer catches it and
returns the synthesis-failure fallback text embedding the error. -/
theorem C7_judge_failure_fallback (env : Env) (prompt e : String)
    (responses : List ModelResponse) (h : 2 ≤ responses.length)
    (hj : env.gemini (build_consensus_prompt prompt responses) = .failure e) :
    (generate_consensus env prompt responses).fst
      = "Gagal membuat konsensus. Error: " ++ e := by
  unfold generate_consensus
  rw [dif_neg (by omega), hj]

/-- Witness for C7 at a concrete environment, prompt and response pair. -/
theorem C7_witness :
    2 ≤ ([⟨"Gemini", "A"⟩, ⟨"GPT (OpenAI)", "B"⟩] : List ModelResponse).length ∧
    envAllFail.gemini
        (build_consensus_prompt "q" [⟨"Gemini", "A"⟩, ⟨"GPT (OpenAI)", "B"⟩])
      = .failure "boom" ∧
    (generate_consensus envAllFail "q"
        [⟨"Gemini", "A"⟩, ⟨"GPT (OpenAI)", "B"⟩]).fst
      = "Gagal membuat konsensus. Error: " ++ "boom" :=
  ⟨by decide, rfl,
    C7_judge_failure_fallback envAllFail "q" "boom"
      [⟨"Gemini", "A"⟩, ⟨"GPT (OpenAI)", "B"⟩] (by decide) rfl⟩

/-- C4: for every model identifier and prompt, if the upstream provider call
raises an exception, `call_llm` returns a result whose response text is the
failure marker followed by the error description; the result is classified as
failed and the error text is embedded.  `call_llm` is a total function: the
except branch converts every exception, so no exception propagates upward. -/
theorem C4_exception_isolated (env : Env) (model_name prompt e : String)
    (h : (model_name = "gemini" ∧ env.gemini prompt = .failure e) ∨
         (model_name = "gpt" ∧ env.gpt prompt = .failure e)) :
    (call_llm env model_name prompt).fst
        = ⟨model_name, "Gagal mendapatkan respons: " ++ e⟩ ∧
    is_failed (call_llm env model_name prompt).fst = true ∧
    containsSubstr e ("Gagal mendapatkan respons: " ++ e) = true := by
  have hmark : ("Gagal mendapatkan respons: " : String).data
      = ("Gagal mendapatkan respons" : String).data ++ (": " : String).data := by
    decide
  have hembed : containsSubstr e ("Gagal mendapatkan respons: " ++ e) = true := by
    refine (containsSubstr_iff _ _).mpr
      ⟨("Gagal mendapatkan respons: " : String).data, [], ?_⟩
    simp [String.data_append]
  have hfst : (call_llm env model_name prompt).fst
      = ⟨model_name, "Gagal mendapatkan respons: " ++ e⟩ := by
    rcases h with ⟨hm, hf⟩ | ⟨hm, hf⟩
    · subst hm; unfold call_llm; rw [if_pos rfl, hf]
    · subst hm; unfold call_llm; rw [if_neg (by decide), if_pos rfl, hf]
  refine ⟨hfst, ?_, hembed⟩
  rw [hfst]
  unfold is_failed
  refine (containsSubstr_iff _ _).mpr ⟨[], (": " : String).data ++ e.data, ?_⟩
  simp [String.data_append, hmark]

/-- Witness for C4 at a concrete environment whose Gemini client raises. -/
theorem C4_witness :
    ((("gemini" : String) = "gemini" ∧ envAllFail.gemini "hi" = .failure "boom") ∨
      (("gemini" : String) = "gpt" ∧ envAllFail.gpt "hi" = .failure "boom")) ∧
    ((call_llm envAllFail "gemini" "hi").fst
        = ⟨"gemini", "Gagal mendapatkan respons: " ++ "boom"⟩ ∧
      is_failed (call_llm envAllFail "gemini" "hi").fst = true ∧
      containsSubstr "boom" ("Gagal mendapatkan respons: " ++ "boom") = true) :=
  ⟨Or.inl ⟨rfl, rfl⟩,
    C4_exception_isolated envAllFail "gemini" "hi" "boom" (Or.inl ⟨rfl, rfl⟩)⟩

/-- C6: for every prompt and every list of two or more successful results,
the judge prompt sent by the Synthesizer to the Gemini client is the built
consensus prompt, and that prompt contains the original user prompt and, for
every result in the list, both its source label and its response text
verbatim. -/
theorem C6_judge_prompt_contains (env : Env) (prompt : String)
    (responses : List ModelResponse) (r : ModelResponse)
    (h : 2 ≤ responses.length) (hr : r ∈ responses) :
    (generate_consensus env prompt responses).snd.geminiCalls
        = [build_consensus_prompt prompt responses] ∧
    containsSubstr prompt (build_consensus_prompt prompt responses) = true ∧
    containsSubstr r.model_name (build_consensus_prompt prompt responses) = true ∧
    containsSubstr r.response (build_consensus_prompt prompt responses) = true := by
  refine ⟨?_, ?_, ?_, ?_⟩
  · unfold generate_consensus
    rw [dif_neg (by omega)]
    cases env.gemini (build_consensus_prompt prompt responses) <;> rfl
  · exact (containsSubstr_iff _ _).mpr (prompt_infix_build prompt responses)
  · exact (containsSubstr_iff _ _).mpr
      ((model_name_infix_block r).trans (block_infix_build prompt responses r hr))
  · exact (containsSubstr_iff _ _).mpr
      ((response_infix_block r).trans (block_infix_build prompt responses r hr))

/-- Witness for C6 at a concrete environment, prompt and two responses. -/
theorem C6_witness :
    2 ≤ ([⟨"Gemini", "A"⟩, ⟨"GPT (OpenAI)", "B"⟩] : List ModelResponse).length ∧
    (⟨"Gemini", "A"⟩ : ModelResponse)
        ∈ ([⟨"Gemini", "A"⟩, ⟨"GPT (OpenAI)", "B"⟩] : List ModelResponse) ∧
    ((generate_consensus envConst "q"
          [⟨"Gemini", "A"⟩, ⟨"GPT (OpenAI)", "B"⟩]).snd.geminiCalls
        = [build_consensus_prompt "q" [⟨"Gemini", "A"⟩, ⟨"GPT (OpenAI)", "B"⟩]] ∧
      containsSubstr "q"
          (build_consensus_prompt "q" [⟨"Gemini", "A"⟩, ⟨"GPT (OpenAI)", "B"⟩])
        = true ∧
      containsSubstr (⟨"Gemini", "A"⟩ : ModelResponse).model_name
          (build_consensus_prompt "q" [⟨"Gemini", "A"⟩, ⟨"GPT (OpenAI)", "B"⟩])
        = true ∧
      containsSubstr (⟨"Gemini", "A"⟩ : ModelResponse).response
          (build_consensus_prompt "q" [⟨"Gemini", "A"⟩, ⟨"GPT (OpenAI)", "B"⟩])
        = true) :=
  ⟨by decide, by decide,
    C6_judge_prompt_contains envConst "q"
      [⟨"Gemini", "A"⟩, ⟨"GPT (OpenAI)", "B"⟩] ⟨"Gemini", "A"⟩
      (by decide) (by decide)⟩

/-- C9: for every model identifier other than "gemini" and "gpt", `call_llm`
returns the fixed text "Model tidak dikenal." with an empty trace (no
upstream provider contacted); that text does not contain the failure marker,
so the result is classified successful, and a request dispatching only that
model feeds it to the Synthesizer, which returns it verbatim as the
consensus. -/
theorem C9_unknown_model_successful (env : Env) (model_name p : String)
    (h1 : model_name ≠ "gemini") (h2 : model_name ≠ "gpt") (h3 : p ≠ "") :
    call_llm env model_name p
        = (⟨model_name, "Model tidak dikenal."⟩, Trace.empty) ∧
    is_failed ⟨model_name, "Model tidak dikenal."⟩ = false ∧
    (aggregate_responses env ⟨p, [model_name]⟩).fst
      = .ok ⟨"Konsensus", "Model tidak dikenal."⟩ := by
  have hc : call_llm env model_name p
      = (⟨model_name, "Model tidak dikenal."⟩, Trace.empty) := by
    unfold call_llm
    rw [if_neg h1, if_neg h2]
  have hf : is_failed ⟨model_name, "Model tidak dikenal."⟩ = false := rfl
  refine ⟨hc, hf, ?_⟩
  simp [aggregate_responses, dispatch, hc, h3, successful_responses, hf,
    generate_consensus]

/-- Witness for C9 at a concrete unknown model identifier. -/
theorem C9_witness :
    ("claude" : String) ≠ "gemini" ∧ ("claude" : String) ≠ "gpt" ∧
    ("hi" : String) ≠ "" ∧
    (call_llm envAllFail "claude" "hi"
        = (⟨"claude", "Model tidak dikenal."⟩, Trace.empty) ∧
      is_failed ⟨"claude", "Model tidak dikenal."⟩ = false ∧
      (aggregate_responses envAllFail ⟨"hi", ["claude"]⟩).fst
        = .ok ⟨"Konsensus", "Model tidak dikenal."⟩) :=
  ⟨by decide, by decide, by decide,
    C9_unknown_model_successful envAllFail "claude" "hi"
      (by decide) (by decide) (by decide)⟩

/-- C10: the handler classifies a result as failed exactly when its response
text contains the failure-marker substring; consequently, a genuine provider
success whose text happens to contain that substring is excluded from
synthesis — a request dispatching only that provider ends in the
total-failure HTTP 500 even though the provider call succeeded. -/
theorem C10_marker_substring_classification (rs : List ModelResponse)
    (r : ModelResponse) (env : Env) (p t : String) (h1 : p ≠ "")
    (h2 : env.gemini p = .success t)
    (h3 : containsSubstr "Gagal mendapatkan respons" t = true) :
    (r ∈ successful_responses rs ↔ r ∈ rs ∧ is_failed r = false) ∧
    (call_llm env "gemini" p).fst = ⟨"Gemini", t⟩ ∧
    (aggregate_responses env ⟨p, ["gemini"]⟩).fst
      = .httpError 500 "Semua model AI gagal merespons." := by
  have hc : call_llm env "gemini" p = (⟨"Gemini", t⟩, ⟨[p], []⟩) := by
    unfold call_llm
    rw [if_pos rfl, h2]
  refine ⟨?_, by rw [hc], ?_⟩
  · simp [successful_responses, List.mem_filter]
  · have hf : is_failed ⟨"Gemini", t⟩ = true := h3
    simp [aggregate_responses, dispatch, hc, h1, successful_responses, hf]

/-- Witness for C10 at a provider whose genuine response text contains the
failure marker. -/
theorem C10_witness :
    ("hi" : String) ≠ "" ∧
    envTricky.gemini "hi"
        = .success "Gagal mendapatkan respons: sebenarnya sukses" ∧
    containsSubstr "Gagal mendapatkan respons"
        "Gagal mendapatkan respons: sebenarnya sukses" = true ∧
    (((⟨"Gemini", "ok"⟩ : ModelResponse)
          ∈ successful_responses [⟨"Gemini", "ok"⟩] ↔
        (⟨"Gemini", "ok"⟩ : ModelResponse) ∈
            ([⟨"Gemini", "ok"⟩] : List ModelResponse) ∧
          is_failed ⟨"Gemini", "ok"⟩ = false) ∧
      (call_llm envTricky "gemini" "hi").fst
        = ⟨"Gemini", "Gagal mendapatkan respons: sebenarnya sukses"⟩ ∧
      (aggregate_responses envTricky ⟨"hi", ["gemini"]⟩).fst
        = .httpError 500 "Semua model AI gagal merespons.") :=
  ⟨by decide, rfl, by decide,
    C10_marker_substring_classification [⟨"Gemini", "ok"⟩] ⟨"Gemini", "ok"⟩
      envTricky "hi" "Gagal mendapatkan respons: sebenarnya sukses"
      (by decide) rfl (by decide)⟩

/-- C1 counterexample: the handler's response does not contain the per-model
breakdown.  Two environments whose individual per-model results differ
("A"/"B" versus "C"/"D") produce identical handler outputs, so no function of
the handler's response can recover the individual results; the response is
the single `ModelResponse` named "Konsensus". -/
theorem C1_counterexample :
    (aggregate_responses envAB ⟨"hi", ["gemini", "gpt"]⟩).fst
        = (aggregate_responses envCD ⟨"hi", ["gemini", "gpt"]⟩).fst ∧
    (call_llm envAB "gemini" "hi").fst ≠ (call_llm envCD "gemini" "hi").fst ∧
    (aggregate_responses envAB ⟨"hi", ["gemini", "gpt"]⟩).fst
        = .ok ⟨"Konsensus", "J"⟩ := by
  refine ⟨by decide, by decide, by decide⟩

/-- C1 amended: for every request with a non-empty prompt, the number of
dispatched per-model results equals the number of dispatched models (failed
results are represented, not dropped), but the handler's response is a single
`ModelResponse`: either the HTTP 500 total-failure error or the body
⟨"Konsensus", synthesized text⟩; no per-model breakdown is returned. -/
theorem C1_no_breakdown_in_response (env : Env) (request : PromptRequest)
    (h : request.prompt ≠ "") :
    ((dispatch env request.prompt request.models).map Prod.fst).length
        = request.models.length ∧
    ((aggregate_responses env request).fst
        = .httpError 500 "Semua model AI gagal merespons." ∨
      (aggregate_responses env request).fst
        = .ok ⟨"Konsensus",
            (generate_consensus env request.prompt
              (successful_responses
                ((dispatch env request.prompt request.models).map Prod.fst))).fst⟩) := by
  constructor
  · simp [dispatch]
  · by_cases hs :
        (successful_responses
          ((dispatch env request.prompt request.models).map Prod.fst)).isEmpty
    · left
      simp [aggregate_responses, h, hs]
    · right
      simp [aggregate_responses, h, hs]

/-- Witness for the amended C1 at a concrete environment and request. -/
theorem C1_witness :
    (⟨"hi", ["gemini", "gpt"]⟩ : PromptRequest).prompt ≠ "" ∧
    (((dispatch envConst (⟨"hi", ["gemini", "gpt"]⟩ : PromptRequest).prompt
          (⟨"hi", ["gemini", "gpt"]⟩ : PromptRequest).models).map Prod.fst).length
        = (⟨"hi", ["gemini", "gpt"]⟩ : PromptRequest).models.length ∧
      ((aggregate_responses envConst ⟨"hi", ["gemini", "gpt"]⟩).fst
          = .httpError 500 "Semua model AI gagal merespons." ∨
        (aggregate_responses envConst ⟨"hi", ["gemini", "gpt"]⟩).fst
          = .ok ⟨"Konsensus",
              (generate_consensus envConst
                (⟨"hi", ["gemini", "gpt"]⟩ : PromptRequest).prompt
                (successful_responses
                  ((dispatch envConst
                      (⟨"hi", ["gemini", "gpt"]⟩ : PromptRequest).prompt
                      (⟨"hi", ["gemini", "gpt"]⟩ : PromptRequest).models).map
                    Prod.fst))).fst⟩)) :=
  ⟨by decide,
    C1_no_breakdown_in_response envConst ⟨"hi", ["gemini", "gpt"]⟩ (by decide)⟩

/-- C2 counterexample: when zero provider calls succeed the handler does not
return a success-shaped degraded response — it raises the request-level
HTTP 500 error; and the Synthesizer, applied to an empty result list, does
not return a fixed fallback without further model calls — it performs one
judge call (its trace records one Gemini call). -/
theorem C2_counterexample :
    (aggregate_responses envAllFail ⟨"hi", ["gemini", "gpt"]⟩).fst
        = .httpError 500 "Semua model AI gagal merespons." ∧
    (generate_consensus envAllFail "hi" []).snd.geminiCalls.length = 1 :=
  ⟨by decide, rfl⟩

/-- C2 amended: for every request with a non-empty prompt in which every
dispatched result is classified as failed, the handler raises the
request-level HTTP 500 error "Semua model AI gagal merespons." and never
invokes the Synthesizer: its trace is exactly the dispatch trace, with no
judge call added. -/
theorem C2_total_failure_http500 (env : Env) (request : PromptRequest)
    (h1 : request.prompt ≠ "")
    (h2 : ((dispatch env request.prompt request.models).map Prod.fst).all
        is_failed = true) :
    aggregate_responses env request
      = (.httpError 500 "Semua model AI gagal merespons.",
         ((dispatch env request.prompt request.models).map Prod.snd).foldl
           Trace.append Trace.empty) := by
  have hempty : (successful_responses
      ((dispatch env request.prompt request.models).map Prod.fst)).isEmpty
      = true := by
    rw [List.isEmpty_iff]
    unfold successful_responses
    rw [List.filter_eq_nil_iff]
    intro r hr
    have hall := List.all_eq_true.mp h2 r hr
    simp [hall]
  unfold aggregate_responses
  rw [if_neg h1]
  simp only [hempty, if_true]

/-- Witness for the amended C2 at a concrete environment in which both
providers fail. -/
theorem C2_witness :
    (⟨"hi", ["gemini", "gpt"]⟩ : PromptRequest).prompt ≠ "" ∧
    ((dispatch envAllFail (⟨"hi", ["gemini", "gpt"]⟩ : PromptRequest).prompt
        (⟨"hi", ["gemini", "gpt"]⟩ : PromptRequest).models).map Prod.fst).all
      is_failed = true ∧
    aggregate_responses envAllFail ⟨"hi", ["gemini", "gpt"]⟩
      = (.httpError 500 "Semua model AI gagal merespons.",
         ((dispatch envAllFail (⟨"hi", ["gemini", "gpt"]⟩ : PromptRequest).prompt
            (⟨"hi", ["gemini", "gpt"]⟩ : PromptRequest).models).map Prod.snd).foldl
           Trace.append Trace.empty) :=
  ⟨by decide, by decide,
    C2_total_failure_http500 envAllFail ⟨"hi", ["gemini", "gpt"]⟩
      (by decide) (by decide)⟩
